import Mathlib

/-!
Shallow embedding of `src/manga_downloader.py` (manga-online-downloader).

The effectful Python code is modelled by explicit state passing over a
`World` record that tracks the observable effects the claims talk about:
the directories that exist, the files that exist, the ordered trace of
network requests (URLs passed to `browser.open`), and the number of
`time.sleep` calls.  Pure helpers (`sanitize_filename`,
`get_file_extension`, `get_chapters`, the start-chapter filter) are
translated as pure Lean functions.  External collaborators (the HTTP
stack, BeautifulSoup, the filesystem's success or failure) are oracles
passed in as parameters, never hard-coded.

Python's `float` values are modelled as exact rationals (`ℚ`); the
claims about the start-chapter filter are settled under that exact
semantics.
-/

namespace MangaDL

/-- One chapter descriptor, as in the Python `Chapter` class
(`title`, `url`). -/
structure Chapter where
  title : String
  url : String
deriving Repr, DecidableEq

/-- The observable effect state threaded through the embedded code:
existing directories, existing files, the ordered list of URLs opened on
the network, and how many times the code slept. -/
structure World where
  dirs : List String := []
  files : List String := []
  trace : List String := []
  sleeps : Nat := 0
deriving Repr, DecidableEq

/-- `sanitize_filename`: `re.sub(r'[<>:"/\\|?*]', '_', name).strip()`. -/
def invalidFileChar (c : Char) : Bool :=
  c = '<' || c = '>' || c = ':' || c = '"' || c = '/' || c = '\\' ||
  c = '|' || c = '?' || c = '*'

/-- Python `str.strip()`: drop whitespace from both ends.  (Stated over
the character list so that proofs and `decide` can evaluate it.) -/
def stripChars (cs : List Char) : List Char :=
  ((cs.dropWhile Char.isWhitespace).reverse.dropWhile Char.isWhitespace).reverse

/-- `sanitize_filename(name)` from the source: each invalid character is
replaced by an underscore, then the result is stripped of surrounding
whitespace. -/
def sanitize_filename (name : String) : String :=
  String.mk (stripChars (name.data.map (fun c => if invalidFileChar c then '_' else c)))

/-- The characters after the first `://`, when the URL has one. -/
def dropScheme : List Char → Option (List Char)
  | ':' :: '/' :: '/' :: rest => some rest
  | _ :: rest => dropScheme rest
  | [] => none

/-- Path of the URL, as `urlparse(url).path`: everything from the first
slash after the host (for URLs containing `://`, and empty when there is
no such slash), with query (`?...`) and fragment (`#...`) removed; a
URL without a scheme is all path. -/
def urlparse_path (url : String) : String :=
  let cs := (url.data.takeWhile (· ≠ '#')).takeWhile (· ≠ '?')
  String.mk
    (match dropScheme cs with
     | some afterScheme => afterScheme.dropWhile (· ≠ '/')
     | none => cs)

/-- The suffix after the last occurrence of `sep` (the whole list when
`sep` does not occur). -/
def afterLast (sep : Char) (cs : List Char) : List Char :=
  (cs.reverse.takeWhile (· ≠ sep)).reverse

/-- The extension part of `os.path.splitext(p)[1]`, dot included: the
segment of the last path component after its last dot, where the leading
dots of the component never start an extension (`splitext` semantics). -/
def splitextExtChars (p : List Char) : List Char :=
  let base := afterLast '/' p
  let trimmed := base.dropWhile (· = '.')
  if trimmed.contains '.' then '.' :: afterLast '.' trimmed else []

/-- `get_file_extension(url)`:
`os.path.splitext(urlparse(url).path)[1][1:].lower()`. -/
def get_file_extension (url : String) : String :=
  String.mk (((splitextExtChars (urlparse_path url).data).drop 1).map Char.toLower)

/-- Python `f"{i:04d}"`: the decimal digits of `i`, left-padded with
zeros to a minimum width of four. -/
def pad4 (i : Nat) : String :=
  let s := toString i
  String.mk (List.replicate (4 - s.length) '0') ++ s

/-- Python truthiness of the value returned by `download_with_retry`
(`True`, `False`, or `None`), as tested by `if not self.download_with_retry(...)`. -/
def truthy : Option Bool → Bool
  | some true => true
  | some false => false
  | none => false

/-- One iteration of the `for attempt in range(self.retry_count)` loop
body of `download_with_retry`, at loop index `attempt`: open the URL
(one network request), on success write the file and return `True`; on
a caught exception return `False` when this was the last attempt, and
otherwise sleep once and then — as literally written in the source —
`return None`.  Every path through the body executes a `return`, so the
loop never advances past its first executed iteration; the function's
trailing `return None` is reached only when `range(retry_count)` is
empty. -/
def download_with_retry_iter (retry_count : Nat) (fetchOk : Nat → Bool)
    (url filename : String) (attempt : Nat) (w : World) : Option Bool × World :=
  if attempt < retry_count then
    let w1 : World := { w with trace := w.trace ++ [url] }
    if fetchOk attempt then
      (some true, { w1 with files := w1.files ++ [filename] })
    else if attempt = retry_count - 1 then
      (some false, w1)
    else
      (none, { w1 with sleeps := w1.sleeps + 1 })
  else
    (none, w)

/-- `MangaDownloader.download_with_retry(url, filename)`, with the
attempt-level success of `browser.open` given by the oracle `fetchOk`.
Returns the Python return value (`True` / `False` / `None`) and the
resulting world. -/
def download_with_retry (retry_count : Nat) (fetchOk : Nat → Bool)
    (url filename : String) (w : World) : Option Bool × World :=
  download_with_retry_iter retry_count fetchOk url filename 0 w

/-- An `<a>` element inside an `episodiotitle` div: its text and its
optional `href` attribute. -/
structure Link where
  text : String
  href : Option String
deriving Repr, DecidableEq

/-- One `div.episodiotitle` tag of the parsed manga page; `link` is
`tag.find('a')`, which may be absent. -/
structure Tag where
  link : Option Link
deriving Repr, DecidableEq

/-- Length of the suffix removed by
`re.sub(r'\s*\d{2}/\d{2}/\d{4}$', '', text)`, computed on the reversed
character list: four digits, a slash, two digits, a slash, two digits,
then any run of whitespace. -/
def dateSuffixLen (rev : List Char) : Option Nat :=
  match rev with
  | y1 :: y2 :: y3 :: y4 :: '/' :: d1 :: d2 :: '/' :: m1 :: m2 :: rest =>
      if (y1.isDigit && y2.isDigit && y3.isDigit && y4.isDigit &&
          d1.isDigit && d2.isDigit && m1.isDigit && m2.isDigit) then
        some (10 + (rest.takeWhile Char.isWhitespace).length)
      else none
  | _ => none

/-- The chapter title as computed in `get_chapters`:
`re.sub(r'\s*\d{2}/\d{2}/\d{4}$', '', link.text).strip()`. -/
def chapterTitleOfText (text : String) : String :=
  let rev := text.data.reverse
  String.mk (stripChars
    (match dateSuffixLen rev with
     | some n => (rev.drop n).reverse
     | none => text.data))

/-- The chapter appended for one tag of the loop in `get_chapters`, if
any: requires a link, a non-empty (`truthy`) `href`, and a non-empty
(`truthy`) cleaned title. -/
def chapterOfTag (tag : Tag) : Option Chapter :=
  match tag.link with
  | none => none
  | some link =>
      let title := chapterTitleOfText link.text
      match link.href with
      | none => none
      | some url => if url ≠ "" ∧ title ≠ "" then some ⟨title, url⟩ else none

/-- `get_chapters(soup)`: collect the valid chapters in source order and
return the reversed list (`list(reversed(chapters))`, chronological
order). -/
def get_chapters (tags : List Tag) : List Chapter :=
  (tags.filterMap chapterOfTag).reverse

/-- Network-side oracles of one run: whether the manga page fetch+parse
succeeds, the extracted title (`none` models the `AttributeError` path
of `get_manga_title`), the parsed `episodiotitle` tags, the image URL
list that `get_chapter_images` extracts from each chapter page, and the
per-attempt success of each image request. -/
structure Net where
  pageOk : Bool
  title : Option String
  chapterTags : List Tag
  images : String → List String
  fetchOk : String → Nat → Bool

/-- Filesystem-side oracles: whether `os.makedirs` succeeds for a path,
and whether the archive step (`shutil.make_archive` + `os.rename`) of
`create_chapter_cbz` succeeds for a chapter's cbz path. -/
structure Sys where
  mkdirOk : String → Bool
  cbzOk : String → Bool

/-- `create_directory(path)` with `exist_ok=True`: on success the
directory exists afterwards; on `OSError` the world is unchanged and
`False` is returned. -/
def create_directory (sys : Sys) (path : String) (w : World) : Bool × World :=
  if sys.mkdirOk path then
    (true, if path ∈ w.dirs then w else { w with dirs := w.dirs ++ [path] })
  else
    (false, w)

/-- The image filename of index `i`:
`os.path.join(chapter_folder, f"{i:04d}.{ext}")` with
`ext = get_file_extension(img_url) or 'jpg'` (an empty extension is
falsy in Python, so it defaults to `"jpg"`). -/
def image_filename (chapter_folder : String) (i : Nat) (img_url : String) : String :=
  let ext := get_file_extension img_url
  chapter_folder ++ "/" ++ pad4 i ++ "." ++ (if ext = "" then "jpg" else ext)

/-- The `for i, img_url in enumerate(images)` loop of `download_chapter`
starting at index `i`: download each image via `download_with_retry` and
return `False` as soon as one download is not truthy.  The `tqdm` /
global-progress updates of the two source branches are display-only and
carry no modelled state; both branches run this same loop. -/
def downloadImagesFrom (retry_count : Nat) (fetchOk : String → Nat → Bool)
    (chapter_folder : String) : Nat → List String → World → Bool × World
  | _, [], w => (true, w)
  | i, img_url :: rest, w =>
      let filename := image_filename chapter_folder i img_url
      let r := download_with_retry retry_count (fetchOk img_url) img_url filename w
      if truthy r.1 then
        downloadImagesFrom retry_count fetchOk chapter_folder (i + 1) rest r.2
      else
        (false, r.2)

/-- `create_chapter_cbz`: build the archive and rename it to `.cbz`,
then remove the image folder when `clean` is set; an `OSError` anywhere
in the `try` block (modelled by the `cbzOk` oracle, covering
`make_archive` and `rename`) is caught and only printed, leaving the
world as it was and skipping the cleanup. -/
def create_chapter_cbz (sys : Sys) (chapter : Chapter)
    (chapter_folder output_path : String) (clean : Bool) (w : World) : World :=
  let cbz_path := output_path ++ "/" ++ sanitize_filename chapter.title
  if sys.cbzOk cbz_path then
    let w1 : World := { w with files := w.files ++ [cbz_path ++ ".cbz"] }
    if clean then
      { w1 with dirs := w1.dirs.filter (fun d => d ≠ chapter_folder),
                files := w1.files.filter
                  (fun f => !(chapter_folder ++ "/").data.isPrefixOf f.data) }
    else w1
  else w

/-- `MangaDownloader.download_chapter(chapter, output_path, create_cbz,
clean_folder)`: skip when the chapter folder already exists, otherwise
fetch the chapter page (`get_chapter_images` opens `chapter.url`; a
caught extraction error is modelled by the oracle returning `[]`), fail
on an empty image list or a failed `create_directory`, download the
images in order, and finally archive when requested.  The
`single_download` flag only selects between the two display styles and
has no modelled effect. -/
def download_chapter (retry_count : Nat) (net : Net) (sys : Sys)
    (chapter : Chapter) (output_path : String) (create_cbz clean_folder : Bool)
    (w : World) : Bool × World :=
  let chapter_folder := output_path ++ "/" ++ sanitize_filename chapter.title
  if chapter_folder ∈ w.dirs then
    (true, w)
  else
    let w1 : World := { w with trace := w.trace ++ [chapter.url] }
    let images := net.images chapter.url
    if images = [] then (false, w1)
    else
      match create_directory sys chapter_folder w1 with
      | (false, w2) => (false, w2)
      | (true, w2) =>
        match downloadImagesFrom retry_count net.fetchOk chapter_folder 0 images w2 with
        | (false, w3) => (false, w3)
        | (true, w3) =>
          let w4 := if create_cbz
            then create_chapter_cbz sys chapter chapter_folder output_path clean_folder w3
            else w3
          (true, w4)

/-- First match of the regex `\d+\.?\d*` anchored at the start of `cs`
(which begins with a digit): the leading digit run, then optionally one
dot and a trailing digit run. -/
def numberMatchAt (cs : List Char) : List Char :=
  let intPart := cs.takeWhile Char.isDigit
  match cs.dropWhile Char.isDigit with
  | '.' :: rest => intPart ++ '.' :: rest.takeWhile Char.isDigit
  | _ => intPart

/-- `re.search(r'\d+\.?\d*', s)`: the first (leftmost) match, if any. -/
def findNumberMatch : List Char → Option (List Char)
  | [] => none
  | c :: rest =>
      if c.isDigit then some (numberMatchAt (c :: rest))
      else findNumberMatch rest

/-- Value of a digit run as a natural number. -/
def digitsToNat (cs : List Char) : Nat :=
  cs.foldl (fun a c => a * 10 + (c.toNat - '0'.toNat)) 0

/-- Exact value of a matched decimal literal (digits, optional dot,
digits); Python's `float` is modelled by the exact rational value. -/
def matchToRat (cs : List Char) : ℚ :=
  let ip := cs.takeWhile (· ≠ '.')
  match cs.dropWhile (· ≠ '.') with
  | _ :: fp => mkRat (digitsToNat ip * 10 ^ fp.length + digitsToNat fp) (10 ^ fp.length)
  | [] => mkRat (digitsToNat ip) 1

/-- `float(re.search(r'\d+\.?\d*', ch.title).group())`, or `none` when
the title has no digit (the `AttributeError` path). -/
def chapterNum (title : String) : Option ℚ :=
  (findNumberMatch title.data).map matchToRat

/-- The start-chapter list comprehension of `run`:
`[ch for ch in chapters if float(re.search(r'\d+\.?\d*', ch.title).group()) >= start_num]`.
If any title of the list has no embedded number the comprehension raises
`AttributeError`, which `run` catches (`none`); otherwise the filtered
list is returned. -/
def filter_start (chapters : List Chapter) (start_num : ℚ) : Option (List Chapter) :=
  if chapters.all (fun ch => (chapterNum ch.title).isSome) then
    some (chapters.filter (fun ch => start_num ≤ (chapterNum ch.title).getD 0))
  else none

/-- Answers collected by `get_user_input`.  `start_chapter` models the
free-text answer: `none` is the empty answer (no filtering), `some none`
an answer on which `float` raises `ValueError`, `some (some q)` an
answer parsing to the value `q`. -/
structure Answers where
  manga_url : String
  create_cbz : Bool
  clean_folders : Bool
  download_all : Bool
  start_chapter : Option (Option ℚ)
  max_workers : Nat

/-- The `if answers['start_chapter']:` block of `run`: no answer keeps
the list; a `ValueError` on the answer or an `AttributeError` on a title
is caught and leads to `return` (`none`). -/
def startFilterStep : Option (Option ℚ) → List Chapter → Option (List Chapter)
  | none, chapters => some chapters
  | some none, _ => none
  | some (some s), chapters => filter_start chapters s

/-- How a `run` ends: reached the final `"Download completed!"` print,
returned early, called `sys.exit(1)`, or raised an uncaught exception
(the `chapters[0]` `IndexError` on an empty filtered list). -/
inductive RunOutcome
  | finished
  | returned
  | exited1
  | crashed
deriving Repr, DecidableEq

/-- Dispatching the chapter jobs: each job is one `download_chapter`
call, its boolean result only printed.  The thread pool of the
`max_workers > 1` branch is modelled by in-order execution: every job's
effects are deterministic, touch only that chapter's folder and URLs,
and the only cross-worker shared state in the source is the progress
display, which is unmodelled. -/
def runJobs (retry_count : Nat) (net : Net) (sys : Sys) (manga_folder : String)
    (create_cbz clean_folders : Bool) : List Chapter → World → World
  | [], w => w
  | ch :: rest, w =>
      runJobs retry_count net sys manga_folder create_cbz clean_folders rest
        (download_chapter retry_count net sys ch manga_folder create_cbz clean_folders w).2

/-- `self.output_folder` of `MangaDownloader.__init__`. -/
def output_folder : String := "manga_downloads"

/-- `MangaDownloader.run()`.  Mirrors the source line by line: prompt
answers, create the output folder (plain `return` on failure), fetch and
parse the manga page (`sys.exit(1)` on failure), extract the title
(`sys.exit(1)` on failure), create the manga folder (`return` on
failure), extract and optionally filter the chapters (`return` on an
empty list or a bad number), truncate to the first chapter when not
downloading all (`chapters[0]` raises on an empty filtered list), then
run the `total_images` pre-pass — one `get_chapter_images` request per
remaining chapter, unconditionally — and dispatch the jobs. -/
def run (retry_count : Nat) (net : Net) (sys : Sys)
    (answers : Option Answers) (w : World) : World × RunOutcome :=
  match answers with
  | none => (w, .returned)
  | some a =>
    let r0 := create_directory sys output_folder w
    if r0.1 = false then (r0.2, .returned)
    else
      let w1 : World := { r0.2 with trace := r0.2.trace ++ [a.manga_url] }
      if net.pageOk = false then (w1, .exited1)
      else
        match net.title with
        | none => (w1, .exited1)
        | some manga_title =>
          let manga_folder := output_folder ++ "/" ++ sanitize_filename manga_title
          let r1 := create_directory sys manga_folder w1
          if r1.1 = false then (r1.2, .returned)
          else
            let w2 := r1.2
            let chapters := get_chapters net.chapterTags
            if chapters = [] then (w2, .returned)
            else
              match startFilterStep a.start_chapter chapters with
              | none => (w2, .returned)
              | some filtered =>
                if ¬ a.download_all ∧ filtered = [] then (w2, .crashed)
                else
                  let selected := if a.download_all then filtered else filtered.take 1
                  let max_workers := min a.max_workers 10
                  let w3 : World := { w2 with trace := w2.trace ++ selected.map (·.url) }
                  let w4 := if max_workers > 1
                    then runJobs retry_count net sys manga_folder
                           a.create_cbz a.clean_folders selected w3
                    else runJobs retry_count net sys manga_folder
                           a.create_cbz a.clean_folders selected w3
                  (w4, .finished)

/-- Process exit status for each way `run` can end: early returns fall
through to a normal interpreter exit (status 0); `sys.exit(1)` and an
uncaught exception both terminate with status 1. -/
def exitStatus : RunOutcome → Nat
  | .finished => 0
  | .returned => 0
  | .exited1 => 1
  | .crashed => 1

/-- The `__main__` harness: a `KeyboardInterrupt` is caught and the
process exits with status 1; otherwise the status is determined by how
`run` ended. -/
def mainExit (interrupted : Bool) (retry_count : Nat) (net : Net) (sys : Sys)
    (answers : Option Answers) (w : World) : Nat :=
  if interrupted then 1 else exitStatus (run retry_count net sys answers w).2

/-! ### Helper lemmas about the image download loop -/

/-- The filenames produced for `urls` when enumeration starts at `i`. -/
def imageNamesFrom (chapter_folder : String) : Nat → List String → List String
  | _, [] => []
  | i, u :: rest => image_filename chapter_folder i u :: imageNamesFrom chapter_folder (i + 1) rest

theorem imageNamesFrom_length (cf : String) :
    ∀ (i : Nat) (urls : List String), (imageNamesFrom cf i urls).length = urls.length := by
  intro i urls
  induction urls generalizing i with
  | nil => rfl
  | cons u rest ih => simp [imageNamesFrom, ih]

theorem imageNamesFrom_get (cf : String) :
    ∀ (urls : List String) (i j : Nat),
      (imageNamesFrom cf i urls).get? j =
        (urls.get? j).map (fun u => image_filename cf (i + j) u) := by
  intro urls
  induction urls with
  | nil => intro i j; simp [imageNamesFrom]
  | cons u rest ih =>
      intro i j
      cases j with
      | zero => simp [imageNamesFrom]
      | succ j =>
          have e : i + 1 + j = i + (j + 1) := by omega
          have h2 := ih (i + 1) j
          rw [e] at h2
          simpa [imageNamesFrom] using h2

/-- A first-attempt success with at least one configured attempt:
`download_with_retry` returns `True` having opened the URL once and
written the file. -/
theorem download_with_retry_ok (rc : Nat) (f : Nat → Bool) (url fn : String) (w : World)
    (hrc : 0 < rc) (hf : f 0 = true) :
    download_with_retry rc f url fn w =
      (some true, { w with trace := w.trace ++ [url], files := w.files ++ [fn] }) := by
  simp [download_with_retry, download_with_retry_iter, hrc, hf]

/-- A first-attempt failure makes the return value falsy (it is `False`
only when `retry_count` is 1, and otherwise the early-returned `None`). -/
theorem download_with_retry_not_truthy (rc : Nat) (f : Nat → Bool) (url fn : String)
    (w : World) (hf : f 0 = false) :
    truthy (download_with_retry rc f url fn w).1 = false := by
  simp only [download_with_retry, download_with_retry_iter, hf]
  by_cases h1 : 0 < rc
  · rw [if_pos h1]
    by_cases h3 : 0 = rc - 1
    · simp [h3, truthy]
    · simp [h3, truthy]
  · simp [h1, truthy]

/-- A first-attempt failure writes no file. -/
theorem download_with_retry_fail_files (rc : Nat) (f : Nat → Bool) (url fn : String)
    (w : World) (hf : f 0 = false) :
    (download_with_retry rc f url fn w).2.files = w.files := by
  simp only [download_with_retry, download_with_retry_iter, hf]
  by_cases h1 : 0 < rc
  · rw [if_pos h1]
    by_cases h3 : 0 = rc - 1 <;> simp [h3]
  · simp [h1]

/-- A first-attempt failure with at least one configured attempt still
opened the URL exactly once. -/
theorem download_with_retry_fail_trace (rc : Nat) (f : Nat → Bool) (url fn : String)
    (w : World) (hrc : 0 < rc) (hf : f 0 = false) :
    (download_with_retry rc f url fn w).2.trace = w.trace ++ [url] := by
  simp only [download_with_retry, download_with_retry_iter, hf, hrc, if_pos]
  by_cases h3 : 0 = rc - 1 <;> simp [h3]

/-- `download_with_retry` never touches the directory set. -/
theorem download_with_retry_dirs (rc : Nat) (f : Nat → Bool) (url fn : String)
    (w : World) :
    (download_with_retry rc f url fn w).2.dirs = w.dirs := by
  simp only [download_with_retry, download_with_retry_iter]
  by_cases h1 : 0 < rc
  · rw [if_pos h1]
    by_cases hf : f 0 = true
    · rw [if_pos hf]
    · rw [if_neg hf]
      by_cases h3 : 0 = rc - 1
      · rw [if_pos h3]
      · rw [if_neg h3]
  · simp [h1]

/-- If the plain download loop returns `True`, every image was written:
the final world extends the initial one by one trace entry per URL (in
order) and one file per URL, named by position. -/
theorem downloadImagesFrom_success (rc : Nat) (f : String → Nat → Bool) (cf : String) :
    ∀ (urls : List String) (i : Nat) (w w' : World),
      downloadImagesFrom rc f cf i urls w = (true, w') →
      w' = { w with trace := w.trace ++ urls,
                    files := w.files ++ imageNamesFrom cf i urls } := by
  intro urls
  induction urls with
  | nil =>
      intro i w w' h
      simp only [downloadImagesFrom, Prod.mk.injEq] at h
      simp [← h.2, imageNamesFrom]
  | cons u rest ih =>
      intro i w w' h
      simp only [downloadImagesFrom] at h
      by_cases hf : f u 0 = true
      · by_cases h1 : 0 < rc
        · rw [download_with_retry_ok rc (f u) u _ w h1 hf] at h
          simp only [truthy, if_true] at h
          have := ih (i + 1) _ w' h
          simp only [this, imageNamesFrom]
          simp
        · have h0 : rc = 0 := by omega
          subst h0
          simp [download_with_retry, download_with_retry_iter, truthy] at h
      · have hf' : f u 0 = false := by simp [hf]
        rw [download_with_retry_not_truthy rc (f u) u _ w hf'] at h
        simp at h

/-- Conversely, a loop whose every URL succeeds on its first attempt
(with at least one configured attempt) returns `True`. -/
theorem downloadImagesFrom_allOk (rc : Nat) (f : String → Nat → Bool) (cf : String)
    (hrc : 0 < rc) :
    ∀ (urls : List String), (∀ u ∈ urls, f u 0 = true) →
      ∀ (i : Nat) (w : World),
        (downloadImagesFrom rc f cf i urls w).1 = true := by
  intro urls
  induction urls with
  | nil => intro _ i w; rfl
  | cons u rest ih =>
      intro hall i w
      have hu : f u 0 = true := hall u (by simp)
      simp only [downloadImagesFrom,
        download_with_retry_ok rc (f u) u _ w hrc hu, truthy, if_true]
      exact ih (fun v hv => hall v (by simp [hv])) (i + 1) _

/-! ### C1: the retry policy -/

/-- C1 (refuting evaluation).  With the configured `retry_count = 3`:
for a fetch that fails its first attempt and would succeed on its second
(`fun a => a != 0`), `download_with_retry` performs exactly one network
request, sleeps once, and returns `None` — a falsy value its callers
treat as failure — instead of retrying and returning success; and for a
fetch that always fails it likewise returns `None` after a single
request and a single sleep, not failure after 3 attempts and 2 delays.
The early `return None` after `time.sleep` in the loop body prevents any
second attempt. -/
theorem download_with_retry_never_retries :
    download_with_retry 3 (fun a => a != 0) "u" "f" {} =
      (none, { dirs := [], files := [], trace := ["u"], sleeps := 1 }) ∧
    download_with_retry 3 (fun _ => false) "u" "f" {} =
      (none, { dirs := [], files := [], trace := ["u"], sleeps := 1 }) := by
  constructor <;> rfl

/-- `create_directory` on a path that does not exist yet, when the
filesystem cooperates: the directory is appended. -/
theorem create_directory_snd_new (sys : Sys) (p : String) (w : World)
    (hmk : sys.mkdirOk p = true) (h : p ∉ w.dirs) :
    create_directory sys p w = (true, { w with dirs := w.dirs ++ [p] }) := by
  unfold create_directory
  rw [if_pos hmk, if_neg h]

/-- If the image at position `i` fails its first attempt while all
earlier images succeed, the loop returns `False` having requested
exactly the first `i + 1` URLs, written exactly the first `i` files,
and touched no directory. -/
theorem downloadImagesFrom_fail (rc : Nat) (f : String → Nat → Bool) (cf : String)
    (hrc : 0 < rc) :
    ∀ (urls : List String) (i : Nat) (hi : i < urls.length) (k : Nat) (w : World),
      (∀ u ∈ urls.take i, f u 0 = true) →
      f (urls.get ⟨i, hi⟩) 0 = false →
      (downloadImagesFrom rc f cf k urls w).1 = false ∧
      (downloadImagesFrom rc f cf k urls w).2.files =
        w.files ++ imageNamesFrom cf k (urls.take i) ∧
      (downloadImagesFrom rc f cf k urls w).2.trace =
        w.trace ++ urls.take (i + 1) ∧
      (downloadImagesFrom rc f cf k urls w).2.dirs = w.dirs := by
  intro urls
  induction urls with
  | nil => intro i hi; exact absurd hi (by simp)
  | cons u rest ih =>
      intro i hi k w hok hfail
      cases i with
      | zero =>
          have hu : f u 0 = false := hfail
          simp only [downloadImagesFrom, download_with_retry_not_truthy rc (f u) u _ w hu,
            Bool.false_eq_true, if_false]
          refine ⟨trivial, ?_, ?_, ?_⟩
          · simp [download_with_retry_fail_files rc (f u) u _ w hu, imageNamesFrom]
          · simp [download_with_retry_fail_trace rc (f u) u _ w hrc hu]
          · simp [download_with_retry_dirs]
      | succ j =>
          have hu : f u 0 = true := hok u (by simp)
          have hj : j < rest.length := by simpa using hi
          simp only [downloadImagesFrom, download_with_retry_ok rc (f u) u _ w hrc hu,
            truthy, if_true]
          have hok' : ∀ v ∈ rest.take j, f v 0 = true := by
            intro v hv
            exact hok v (by simp [hv])
          have hfail' : f (rest.get ⟨j, hj⟩) 0 = false := by
            simpa using hfail
          have h := ih j hj (k + 1)
            { w with trace := w.trace ++ [u],
                     files := w.files ++ [image_filename cf k u] } hok' hfail'
          refine ⟨h.1, ?_, ?_, h.2.2.2⟩
          · rw [h.2.1]
            simp [imageNamesFrom]
          · rw [h.2.2.1]
            simp

/-! ### C4: files produced by a successful chapter download -/

/-- C4.  If a chapter download (without archiving) completes
successfully on a non-empty image URL list of length `N`, it produces
exactly the `N` files of that chapter's directory, the `i`-th input URL
producing the file named by the zero-padded 4-digit index `i`, in input
order, with the extension parsed from that URL's path, defaulting to
`"jpg"` when the path has none. -/
theorem download_chapter_success_files (rc : Nat) (net : Net) (sys : Sys)
    (chapter : Chapter) (output_path : String) (w w' : World) (urls : List String)
    (himg : net.images chapter.url = urls)
    (hne : urls ≠ [])
    (hnew : (output_path ++ "/" ++ sanitize_filename chapter.title) ∉ w.dirs)
    (hsucc : download_chapter rc net sys chapter output_path false false w = (true, w')) :
    w'.files = w.files ++
      imageNamesFrom (output_path ++ "/" ++ sanitize_filename chapter.title) 0 urls ∧
    (imageNamesFrom (output_path ++ "/" ++ sanitize_filename chapter.title) 0 urls).length
      = urls.length ∧
    ∀ i, (imageNamesFrom (output_path ++ "/" ++ sanitize_filename chapter.title) 0 urls).get? i
      = (urls.get? i).map (fun u =>
          output_path ++ "/" ++ sanitize_filename chapter.title ++ "/" ++ pad4 i ++ "." ++
            (if get_file_extension u = "" then "jpg" else get_file_extension u)) := by
  refine ⟨?_, imageNamesFrom_length _ _ _, ?_⟩
  · simp only [download_chapter, himg] at hsucc
    rw [if_neg hnew, if_neg hne] at hsucc
    by_cases hmk : sys.mkdirOk (output_path ++ "/" ++ sanitize_filename chapter.title) = true
    · simp only [create_directory, hmk, if_true] at hsucc
      rcases hdl : downloadImagesFrom rc net.fetchOk
          (output_path ++ "/" ++ sanitize_filename chapter.title) 0 urls
          (if (output_path ++ "/" ++ sanitize_filename chapter.title) ∈
              { w with trace := w.trace ++ [chapter.url] : World }.dirs then
            { w with trace := w.trace ++ [chapter.url] }
          else { { w with trace := w.trace ++ [chapter.url] : World } with
                 dirs := { w with trace := w.trace ++ [chapter.url] : World }.dirs ++
                   [output_path ++ "/" ++ sanitize_filename chapter.title] })
        with ⟨b, w3⟩
      rw [hdl] at hsucc
      cases b with
      | false => simp at hsucc
      | true =>
          simp only [if_false, Bool.false_eq_true] at hsucc
          have := downloadImagesFrom_success rc net.fetchOk _ urls 0 _ w3 hdl
          have hw' : w3 = w' := by
            simpa using congrArg Prod.snd hsucc
          rw [← hw', this]
          rw [if_neg hnew]
    · simp only [create_directory] at hsucc
      rw [if_neg hmk] at hsucc
      simp at hsucc
  · intro i
    have := imageNamesFrom_get (output_path ++ "/" ++ sanitize_filename chapter.title) urls 0 i
    simpa [image_filename] using this

/-! ### C7: a failed image aborts the chapter, leaving the partial folder -/

/-- C7.  If the image at position `i` of the chapter's URL list fails
(its retry-wrapped download is falsy) while all earlier images succeed,
`download_chapter` returns `False`; the network trace shows requests
only up to position `i` (no later image is attempted), and the chapter
directory stays on disk containing exactly the `i` files downloaded
before the failure — no cleanup or rollback. -/
theorem download_chapter_fail_at (rc : Nat) (net : Net) (sys : Sys)
    (chapter : Chapter) (output_path : String) (create_cbz clean_folder : Bool)
    (w : World) (urls : List String) (i : Nat)
    (hrc : 0 < rc)
    (himg : net.images chapter.url = urls)
    (hi : i < urls.length)
    (hnew : (output_path ++ "/" ++ sanitize_filename chapter.title) ∉ w.dirs)
    (hmk : sys.mkdirOk (output_path ++ "/" ++ sanitize_filename chapter.title) = true)
    (hok : ∀ u ∈ urls.take i, net.fetchOk u 0 = true)
    (hfail : net.fetchOk (urls.get ⟨i, hi⟩) 0 = false) :
    (download_chapter rc net sys chapter output_path create_cbz clean_folder w).1 = false ∧
    (download_chapter rc net sys chapter output_path create_cbz clean_folder w).2.files =
      w.files ++
        imageNamesFrom (output_path ++ "/" ++ sanitize_filename chapter.title) 0
          (urls.take i) ∧
    (download_chapter rc net sys chapter output_path create_cbz clean_folder w).2.trace =
      w.trace ++ chapter.url :: urls.take (i + 1) ∧
    (download_chapter rc net sys chapter output_path create_cbz clean_folder w).2.dirs =
      w.dirs ++ [output_path ++ "/" ++ sanitize_filename chapter.title] := by
  have hne : urls ≠ [] := by
    intro h
    rw [h] at hi
    exact absurd hi (by simp)
  have hnew1 : (output_path ++ "/" ++ sanitize_filename chapter.title) ∉
      ({ w with trace := w.trace ++ [chapter.url] } : World).dirs := by
    simpa using hnew
  simp only [download_chapter, himg]
  rw [if_neg hnew, if_neg hne]
  simp only [create_directory, hmk, if_true]
  rw [if_neg hnew1]
  have h := downloadImagesFrom_fail rc net.fetchOk
    (output_path ++ "/" ++ sanitize_filename chapter.title) hrc urls i hi 0
    { dirs := ({ w with trace := w.trace ++ [chapter.url] } : World).dirs ++
        [output_path ++ "/" ++ sanitize_filename chapter.title],
      files := ({ w with trace := w.trace ++ [chapter.url] } : World).files,
      trace := ({ w with trace := w.trace ++ [chapter.url] } : World).trace,
      sleeps := ({ w with trace := w.trace ++ [chapter.url] } : World).sleeps }
    hok hfail
  rcases hdl : downloadImagesFrom rc net.fetchOk
      (output_path ++ "/" ++ sanitize_filename chapter.title) 0 urls
      { dirs := ({ w with trace := w.trace ++ [chapter.url] } : World).dirs ++
          [output_path ++ "/" ++ sanitize_filename chapter.title],
        files := ({ w with trace := w.trace ++ [chapter.url] } : World).files,
        trace := ({ w with trace := w.trace ++ [chapter.url] } : World).trace,
        sleeps := ({ w with trace := w.trace ++ [chapter.url] } : World).sleeps }
    with ⟨b, w3⟩
  rw [hdl] at h
  have hb : b = false := h.1
  subst hb
  refine ⟨rfl, ?_, ?_, ?_⟩
  · rw [h.2.1]
  · rw [h.2.2.1]
    simp
  · rw [h.2.2.2]

/-! ### Concrete fixtures for witnesses and counterexamples -/

/-- A two-chapter site (newest first in source order) where every
request succeeds. -/
def netA : Net where
  pageOk := true
  title := some "My Manga"
  chapterTags := [⟨some ⟨"Chapter 2", some "cu2"⟩⟩, ⟨some ⟨"Chapter 1", some "cu1"⟩⟩]
  images := fun u =>
    if u = "cu1" then ["https://h/a.png", "https://h/b"]
    else if u = "cu2" then ["https://h/c.jpg"] else []
  fetchOk := fun _ _ => true

/-- Like `netA` but the second image of chapter 1 always fails. -/
def netB : Net where
  pageOk := true
  title := some "My Manga"
  chapterTags := [⟨some ⟨"Chapter 2", some "cu2"⟩⟩, ⟨some ⟨"Chapter 1", some "cu1"⟩⟩]
  images := fun u =>
    if u = "cu1" then ["https://h/a.png", "https://h/b.png"]
    else if u = "cu2" then ["https://h/c.jpg"] else []
  fetchOk := fun u _ => decide (u = "https://h/a.png")

/-- A filesystem where every operation succeeds. -/
def sysA : Sys where
  mkdirOk := fun _ => true
  cbzOk := fun _ => true

/-- Chapter 1 of the fixture site. -/
def chA : Chapter := ⟨"Chapter 1", "cu1"⟩

/-- C4 witness: the successful chapter download of the fixture produces
exactly its two files, `0000.png` (extension parsed from the URL path)
and `0001.jpg` (defaulted). -/
theorem download_chapter_success_files_witness :
    netA.images chA.url = ["https://h/a.png", "https://h/b"] ∧
    (["https://h/a.png", "https://h/b"] : List String) ≠ [] ∧
    ("out" ++ "/" ++ sanitize_filename chA.title) ∉ ({} : World).dirs ∧
    download_chapter 3 netA sysA chA "out" false false {} =
      (true, (download_chapter 3 netA sysA chA "out" false false {}).2) ∧
    ((download_chapter 3 netA sysA chA "out" false false {}).2.files =
      ({} : World).files ++
        imageNamesFrom ("out" ++ "/" ++ sanitize_filename chA.title) 0
          ["https://h/a.png", "https://h/b"] ∧
    (imageNamesFrom ("out" ++ "/" ++ sanitize_filename chA.title) 0
        ["https://h/a.png", "https://h/b"]).length =
      (["https://h/a.png", "https://h/b"] : List String).length ∧
    ∀ i, (imageNamesFrom ("out" ++ "/" ++ sanitize_filename chA.title) 0
        ["https://h/a.png", "https://h/b"]).get? i
      = ((["https://h/a.png", "https://h/b"] : List String).get? i).map (fun u =>
          "out" ++ "/" ++ sanitize_filename chA.title ++ "/" ++ pad4 i ++ "." ++
            (if get_file_extension u = "" then "jpg" else get_file_extension u))) :=
  ⟨rfl, by decide, by decide, by decide,
   download_chapter_success_files 3 netA sysA chA "out" {}
     (download_chapter 3 netA sysA chA "out" false false {}).2
     ["https://h/a.png", "https://h/b"] rfl (by decide) (by decide) (by decide)⟩

/-- C7 witness: with the second image of chapter 1 failing, the fixture
chapter returns `False`, requested only its two first URLs, kept the
first downloaded file, and left the chapter directory in place. -/
theorem download_chapter_fail_at_witness :
    (0 : Nat) < 3 ∧
    netB.images chA.url = ["https://h/a.png", "https://h/b.png"] ∧
    (1 : Nat) < (["https://h/a.png", "https://h/b.png"] : List String).length ∧
    ("out" ++ "/" ++ sanitize_filename chA.title) ∉ ({} : World).dirs ∧
    sysA.mkdirOk ("out" ++ "/" ++ sanitize_filename chA.title) = true ∧
    (∀ u ∈ (["https://h/a.png", "https://h/b.png"] : List String).take 1,
      netB.fetchOk u 0 = true) ∧
    netB.fetchOk ((["https://h/a.png", "https://h/b.png"] : List String).get
      ⟨1, by decide⟩) 0 = false ∧
    ((download_chapter 3 netB sysA chA "out" true true {}).1 = false ∧
    (download_chapter 3 netB sysA chA "out" true true {}).2.files =
      ({} : World).files ++
        imageNamesFrom ("out" ++ "/" ++ sanitize_filename chA.title) 0
          ((["https://h/a.png", "https://h/b.png"] : List String).take 1) ∧
    (download_chapter 3 netB sysA chA "out" true true {}).2.trace =
      ({} : World).trace ++ chA.url ::
        (["https://h/a.png", "https://h/b.png"] : List String).take (1 + 1) ∧
    (download_chapter 3 netB sysA chA "out" true true {}).2.dirs =
      ({} : World).dirs ++ ["out" ++ "/" ++ sanitize_filename chA.title]) :=
  ⟨by decide, rfl, by decide, by decide, rfl, by decide, by decide,
   download_chapter_fail_at 3 netB sysA chA "out" true true {}
     ["https://h/a.png", "https://h/b.png"] 1 (by decide) rfl (by decide)
     (by decide) rfl (by decide) (by decide)⟩

/-! ### C8: the start-chapter filter -/

/-- C8.  When every chapter title embeds a decimal number, the
start-chapter filter succeeds and keeps exactly the chapters whose
embedded number is at least `s`: the result is the order-preserving
sublist of the input whose members are characterized by the numeric
threshold. -/
theorem filter_start_spec (chapters : List Chapter) (s : ℚ)
    (h : ∀ ch ∈ chapters, (chapterNum ch.title).isSome) :
    filter_start chapters s =
      some (chapters.filter (fun ch => s ≤ (chapterNum ch.title).getD 0)) ∧
    (chapters.filter (fun ch => s ≤ (chapterNum ch.title).getD 0)).Sublist chapters ∧
    ∀ c, c ∈ chapters.filter (fun ch => s ≤ (chapterNum ch.title).getD 0) ↔
      c ∈ chapters ∧ s ≤ (chapterNum c.title).getD 0 := by
  refine ⟨?_, List.filter_sublist _, ?_⟩
  · unfold filter_start
    rw [if_pos]
    exact List.all_eq_true.mpr h
  · intro c
    simp [List.mem_filter]

/-- C8 witness: with start value 12, the fixture list keeps exactly
"Chapter 12" and "Chapter 12.5", in order. -/
theorem filter_start_spec_witness :
    (∀ ch ∈ ([⟨"Chapter 1", "u1"⟩, ⟨"Chapter 12", "u12"⟩,
        ⟨"Chapter 12.5", "u125"⟩] : List Chapter), (chapterNum ch.title).isSome) ∧
    (filter_start [⟨"Chapter 1", "u1"⟩, ⟨"Chapter 12", "u12"⟩, ⟨"Chapter 12.5", "u125"⟩] 12 =
      some (([⟨"Chapter 1", "u1"⟩, ⟨"Chapter 12", "u12"⟩,
        ⟨"Chapter 12.5", "u125"⟩] : List Chapter).filter
          (fun ch => (12 : ℚ) ≤ (chapterNum ch.title).getD 0)) ∧
    (([⟨"Chapter 1", "u1"⟩, ⟨"Chapter 12", "u12"⟩,
        ⟨"Chapter 12.5", "u125"⟩] : List Chapter).filter
          (fun ch => (12 : ℚ) ≤ (chapterNum ch.title).getD 0)).Sublist
      [⟨"Chapter 1", "u1"⟩, ⟨"Chapter 12", "u12"⟩, ⟨"Chapter 12.5", "u125"⟩] ∧
    ∀ c, c ∈ (([⟨"Chapter 1", "u1"⟩, ⟨"Chapter 12", "u12"⟩,
        ⟨"Chapter 12.5", "u125"⟩] : List Chapter).filter
          (fun ch => (12 : ℚ) ≤ (chapterNum ch.title).getD 0)) ↔
      c ∈ ([⟨"Chapter 1", "u1"⟩, ⟨"Chapter 12", "u12"⟩,
        ⟨"Chapter 12.5", "u125"⟩] : List Chapter) ∧ (12 : ℚ) ≤ (chapterNum c.title).getD 0) :=
  ⟨by decide,
   filter_start_spec [⟨"Chapter 1", "u1"⟩, ⟨"Chapter 12", "u12"⟩,
     ⟨"Chapter 12.5", "u125"⟩] 12 (by decide)⟩

/-! ### C9: chapter extraction reverses the source order -/

/-- C9.  `get_chapters` returns the reversal of the source (newest
first) order of its valid chapter entries: same length, and the `i`-th
returned chapter is the `(n - 1 - i)`-th extracted one. -/
theorem get_chapters_reverses (tags : List Tag) :
    (get_chapters tags).length = (tags.filterMap chapterOfTag).length ∧
    ∀ i, i < (tags.filterMap chapterOfTag).length →
      (get_chapters tags).get? i =
        (tags.filterMap chapterOfTag).get?
          ((tags.filterMap chapterOfTag).length - 1 - i) := by
  constructor
  · simp [get_chapters]
  · intro i hi
    exact List.get?_reverse hi

/-- C9 witness: on the fixture page (newest first), position 0 of the
returned list is the oldest chapter. -/
theorem get_chapters_reverses_witness :
    (0 : Nat) < (netA.chapterTags.filterMap chapterOfTag).length ∧
    (get_chapters netA.chapterTags).get? 0 =
      (netA.chapterTags.filterMap chapterOfTag).get?
        ((netA.chapterTags.filterMap chapterOfTag).length - 1 - 0) :=
  ⟨by decide, (get_chapters_reverses netA.chapterTags).2 0 (by decide)⟩

/-! ### C5: archive failure does not fail the chapter -/

/-- A filesystem where directories can be created but every archive
step fails with `OSError`. -/
def sysB : Sys where
  mkdirOk := fun _ => true
  cbzOk := fun _ => false

/-- C5 counterexample: on the fixture chapter with `create_cbz` set and
a failing archive step, `download_chapter` returns `True` — the
chapter's outcome is Success, not Failed as the claim states — while
the downloaded images are still on disk. -/
theorem download_chapter_cbz_fail_counterexample :
    sysB.cbzOk ("out" ++ "/" ++ sanitize_filename chA.title) = false ∧
    (download_chapter 3 netA sysB chA "out" true true {}).1 = true ∧
    (download_chapter 3 netA sysB chA "out" true true {}).2.files =
      ["out/Chapter 1/0000.png", "out/Chapter 1/0001.jpg"] ∧
    (download_chapter 3 netA sysB chA "out" true true {}).2.dirs = ["out/Chapter 1"] := by
  decide

/-- C5 amended.  When the archive step of a chapter fails, the chapter's
outcome and the final filesystem state are exactly those of the same
download without archiving: the outcome is unchanged (Success when the
images all downloaded), the error is only logged, and the downloaded
image files remain on disk untouched. -/
theorem download_chapter_cbz_fail_keeps_outcome (rc : Nat) (net : Net) (sys : Sys)
    (chapter : Chapter) (output_path : String) (clean_folder : Bool) (w : World)
    (hcbz : sys.cbzOk (output_path ++ "/" ++ sanitize_filename chapter.title) = false) :
    download_chapter rc net sys chapter output_path true clean_folder w =
      download_chapter rc net sys chapter output_path false clean_folder w := by
  unfold download_chapter
  simp only [create_chapter_cbz, hcbz, Bool.false_eq_true, if_false, if_true]

/-- C5 witness: instantiating the amended theorem on the fixture. -/
theorem download_chapter_cbz_fail_keeps_outcome_witness :
    sysB.cbzOk ("out" ++ "/" ++ sanitize_filename chA.title) = false ∧
    download_chapter 3 netA sysB chA "out" true true {} =
      download_chapter 3 netA sysB chA "out" false true {} :=
  ⟨by decide, download_chapter_cbz_fail_keeps_outcome 3 netA sysB chA "out" true {} (by decide)⟩

/-! ### Helper lemmas about `create_directory`, skipped jobs and `run` -/

theorem create_directory_fst (sys : Sys) (p : String) (w : World) :
    (create_directory sys p w).1 = sys.mkdirOk p := by
  unfold create_directory
  by_cases h : sys.mkdirOk p = true
  · rw [if_pos h, h]
  · rw [if_neg h]
    simp [Bool.eq_false_iff.mpr h]

theorem create_directory_trace (sys : Sys) (p : String) (w : World) :
    (create_directory sys p w).2.trace = w.trace := by
  unfold create_directory
  by_cases h : sys.mkdirOk p = true
  · rw [if_pos h]
    by_cases h2 : p ∈ w.dirs
    · rw [if_pos h2]
    · rw [if_neg h2]
  · rw [if_neg h]

theorem create_directory_files (sys : Sys) (p : String) (w : World) :
    (create_directory sys p w).2.files = w.files := by
  unfold create_directory
  by_cases h : sys.mkdirOk p = true
  · rw [if_pos h]
    by_cases h2 : p ∈ w.dirs
    · rw [if_pos h2]
    · rw [if_neg h2]
  · rw [if_neg h]

theorem create_directory_sleeps (sys : Sys) (p : String) (w : World) :
    (create_directory sys p w).2.sleeps = w.sleeps := by
  unfold create_directory
  by_cases h : sys.mkdirOk p = true
  · rw [if_pos h]
    by_cases h2 : p ∈ w.dirs
    · rw [if_pos h2]
    · rw [if_neg h2]
  · rw [if_neg h]

theorem create_directory_mem_dirs (sys : Sys) (p : String) (w : World) (x : String)
    (hx : x ∈ w.dirs) : x ∈ (create_directory sys p w).2.dirs := by
  unfold create_directory
  by_cases h : sys.mkdirOk p = true
  · rw [if_pos h]
    by_cases h2 : p ∈ w.dirs
    · rw [if_pos h2]
      exact hx
    · rw [if_neg h2]
      exact List.mem_append_left _ hx
  · rw [if_neg h]
    exact hx

/-- A chapter whose directory already exists is skipped entirely:
`download_chapter` returns `True` and the world — network trace
included — is untouched.  (The `os.path.exists` check is the first
statement of the function, before any fetch.) -/
theorem download_chapter_skip (rc : Nat) (net : Net) (sys : Sys)
    (chapter : Chapter) (output_path : String) (cb cl : Bool) (w : World)
    (h : (output_path ++ "/" ++ sanitize_filename chapter.title) ∈ w.dirs) :
    download_chapter rc net sys chapter output_path cb cl w = (true, w) := by
  unfold download_chapter
  rw [if_pos h]

/-- A batch whose every chapter directory already exists leaves the
world unchanged: no request, no file, no sleep. -/
theorem runJobs_all_exist (rc : Nat) (net : Net) (sys : Sys) (mf : String)
    (cb cl : Bool) :
    ∀ (l : List Chapter) (w : World),
      (∀ ch ∈ l, (mf ++ "/" ++ sanitize_filename ch.title) ∈ w.dirs) →
      runJobs rc net sys mf cb cl l w = w := by
  intro l
  induction l with
  | nil => intro w _; rfl
  | cons c rest ih =>
      intro w hall
      unfold runJobs
      rw [download_chapter_skip rc net sys c mf cb cl w (hall c (by simp))]
      exact ih w (fun ch hch => hall ch (by simp [hch]))

/-- `run` on the happy path (directories creatable, page fetched, title
found, chapters present, filter step successful, no `chapters[0]`
crash): it reaches the job phase having requested exactly the manga page
and — unconditionally, whatever `max_workers` — one chapter page per
selected chapter (the `total_images` pre-pass), then executes the jobs
in chapter order. -/
theorem run_happy (rc : Nat) (net : Net) (sys : Sys) (a : Answers) (w : World)
    (t : String) (filtered selected : List Chapter)
    (hmk0 : sys.mkdirOk output_folder = true)
    (hpage : net.pageOk = true)
    (htitle : net.title = some t)
    (hmk1 : sys.mkdirOk (output_folder ++ "/" ++ sanitize_filename t) = true)
    (hch : get_chapters net.chapterTags ≠ [])
    (hfilt : startFilterStep a.start_chapter (get_chapters net.chapterTags) = some filtered)
    (hsel : ¬ (¬ a.download_all ∧ filtered = []))
    (hselected : selected = if a.download_all then filtered else filtered.take 1) :
    ∃ w2 : World,
      w2.trace = w.trace ++ [a.manga_url] ∧
      w2.files = w.files ∧
      w2.sleeps = w.sleeps ∧
      (∀ x ∈ w.dirs, x ∈ w2.dirs) ∧
      run rc net sys (some a) w =
        (runJobs rc net sys (output_folder ++ "/" ++ sanitize_filename t)
           a.create_cbz a.clean_folders selected
           { w2 with trace := w2.trace ++ selected.map (·.url) },
         .finished) := by
  subst hselected
  refine ⟨(create_directory sys (output_folder ++ "/" ++ sanitize_filename t)
      { (create_directory sys output_folder w).2 with
        trace := (create_directory sys output_folder w).2.trace ++ [a.manga_url] }).2,
    ?_, ?_, ?_, ?_, ?_⟩
  · rw [create_directory_trace]
    show (create_directory sys output_folder w).2.trace ++ [a.manga_url] = _
    rw [create_directory_trace]
  · rw [create_directory_files]
    show (create_directory sys output_folder w).2.files = _
    rw [create_directory_files]
  · rw [create_directory_sleeps]
    show (create_directory sys output_folder w).2.sleeps = _
    rw [create_directory_sleeps]
  · intro x hx
    exact create_directory_mem_dirs _ _ _ _ (create_directory_mem_dirs _ _ _ _ hx)
  · simp only [run, create_directory_fst, hmk0, hmk1, hpage, htitle, hfilt]
    rw [if_neg (by simp), if_neg (by simp), if_neg (by simp), if_neg hch, if_neg hsel]
    by_cases hmw : min a.max_workers 10 > 1
    · rw [if_pos hmw]
    · rw [if_neg hmw]

/-! ### Trace extension: every phase only appends known URLs -/

theorem download_with_retry_trace_ext (rc : Nat) (f : Nat → Bool) (url fn : String)
    (w : World) :
    ∃ tr, (download_with_retry rc f url fn w).2.trace = w.trace ++ tr ∧
      ∀ u ∈ tr, u = url := by
  unfold download_with_retry download_with_retry_iter
  by_cases h1 : 0 < rc
  · rw [if_pos h1]
    by_cases hf : f 0 = true
    · rw [if_pos hf]
      exact ⟨[url], rfl, by simp⟩
    · rw [if_neg hf]
      by_cases h3 : 0 = rc - 1
      · rw [if_pos h3]
        exact ⟨[url], rfl, by simp⟩
      · rw [if_neg h3]
        exact ⟨[url], rfl, by simp⟩
  · rw [if_neg h1]
    exact ⟨[], by simp, by simp⟩

theorem downloadImagesFrom_trace_ext (rc : Nat) (f : String → Nat → Bool) (cf : String) :
    ∀ (urls : List String) (k : Nat) (w : World),
      ∃ tr, (downloadImagesFrom rc f cf k urls w).2.trace = w.trace ++ tr ∧
        ∀ u ∈ tr, u ∈ urls := by
  intro urls
  induction urls with
  | nil =>
      intro k w
      exact ⟨[], by simp [downloadImagesFrom], by simp⟩
  | cons u rest ih =>
      intro k w
      simp only [downloadImagesFrom]
      obtain ⟨t1, h1, m1⟩ :=
        download_with_retry_trace_ext rc (f u) u (image_filename cf k u) w
      by_cases ht : truthy (download_with_retry rc (f u) u (image_filename cf k u) w).1 = true
      · rw [if_pos ht]
        obtain ⟨t2, h2, m2⟩ :=
          ih (k + 1) (download_with_retry rc (f u) u (image_filename cf k u) w).2
        refine ⟨t1 ++ t2, ?_, ?_⟩
        · rw [h2, h1, List.append_assoc]
        · intro v hv
          rcases List.mem_append.mp hv with h | h
          · simp [m1 v h]
          · simp [m2 v h]
      · rw [if_neg ht]
        refine ⟨t1, h1, ?_⟩
        intro v hv
        simp [m1 v hv]

theorem create_chapter_cbz_trace (sys : Sys) (ch : Chapter) (cf op : String)
    (clean : Bool) (w : World) :
    (create_chapter_cbz sys ch cf op clean w).trace = w.trace := by
  simp only [create_chapter_cbz]
  by_cases h : sys.cbzOk (op ++ "/" ++ sanitize_filename ch.title) = true
  · rw [if_pos h]
    by_cases hc : clean = true
    · rw [if_pos hc]
    · rw [if_neg hc]
  · rw [if_neg h]

theorem download_chapter_trace_ext (rc : Nat) (net : Net) (sys : Sys) (ch : Chapter)
    (p : String) (cb cl : Bool) (w : World) :
    ∃ tr, (download_chapter rc net sys ch p cb cl w).2.trace = w.trace ++ tr ∧
      ∀ u ∈ tr, u = ch.url ∨ u ∈ net.images ch.url := by
  simp only [download_chapter]
  by_cases hmem : (p ++ "/" ++ sanitize_filename ch.title) ∈ w.dirs
  · rw [if_pos hmem]
    exact ⟨[], by simp, by simp⟩
  · rw [if_neg hmem]
    by_cases himg : net.images ch.url = []
    · rw [if_pos himg]
      exact ⟨[ch.url], rfl, by simp⟩
    · rw [if_neg himg]
      rcases hcd : create_directory sys (p ++ "/" ++ sanitize_filename ch.title)
          { w with trace := w.trace ++ [ch.url] } with ⟨b, w2⟩
      have hw2 : w2.trace = w.trace ++ [ch.url] := by
        have h2 := create_directory_trace sys (p ++ "/" ++ sanitize_filename ch.title)
          { w with trace := w.trace ++ [ch.url] }
        rw [hcd] at h2
        exact h2
      cases b with
      | false =>
          exact ⟨[ch.url], hw2, by simp⟩
      | true =>
          dsimp only
          rcases hdl : downloadImagesFrom rc net.fetchOk
              (p ++ "/" ++ sanitize_filename ch.title) 0 (net.images ch.url) w2
            with ⟨b2, w3⟩
          have hext := downloadImagesFrom_trace_ext rc net.fetchOk
            (p ++ "/" ++ sanitize_filename ch.title) (net.images ch.url) 0 w2
          rw [hdl] at hext
          obtain ⟨t2, h2, m2⟩ := hext
          have hw3 : w3.trace = w.trace ++ (ch.url :: t2) := by
            rw [h2, hw2]
            simp
          cases b2 with
          | false =>
              exact ⟨ch.url :: t2, hw3, by
                intro v hv
                rcases hv with _ | hv
                · exact Or.inl rfl
                · exact Or.inr (m2 v (by assumption))⟩
          | true =>
              refine ⟨ch.url :: t2, ?_, ?_⟩
              · show (if cb then create_chapter_cbz sys ch
                    (p ++ "/" ++ sanitize_filename ch.title) p cl w3 else w3).trace = _
                by_cases hcb : cb = true
                · rw [if_pos hcb, create_chapter_cbz_trace]
                  exact hw3
                · rw [if_neg hcb]
                  exact hw3
              · intro v hv
                rcases hv with _ | hv
                · exact Or.inl rfl
                · exact Or.inr (m2 v (by assumption))

theorem runJobs_trace_ext (rc : Nat) (net : Net) (sys : Sys) (mf : String) (cb cl : Bool) :
    ∀ (l : List Chapter) (w : World),
      ∃ tr, (runJobs rc net sys mf cb cl l w).trace = w.trace ++ tr ∧
        ∀ u ∈ tr, ∃ ch, ch ∈ l ∧ (u = ch.url ∨ u ∈ net.images ch.url) := by
  intro l
  induction l with
  | nil =>
      intro w
      exact ⟨[], by simp [runJobs], by simp⟩
  | cons c rest ih =>
      intro w
      simp only [runJobs]
      obtain ⟨t1, h1, m1⟩ := download_chapter_trace_ext rc net sys c mf cb cl w
      obtain ⟨t2, h2, m2⟩ := ih (download_chapter rc net sys c mf cb cl w).2
      refine ⟨t1 ++ t2, ?_, ?_⟩
      · rw [h2, h1, List.append_assoc]
      · intro u hu
        rcases List.mem_append.mp hu with h | h
        · exact ⟨c, by simp, m1 u h⟩
        · obtain ⟨ch, hch, hor⟩ := m2 u h
          exact ⟨ch, by simp [hch], hor⟩

/-- `create_directory` when the filesystem refuses: `False` and no
change. -/
theorem create_directory_fail (sys : Sys) (p : String) (w : World)
    (h : sys.mkdirOk p = false) :
    create_directory sys p w = (false, w) := by
  unfold create_directory
  rw [if_neg (by simp [h])]

/-! ### C2: what a second identical run requests -/

/-- Answers of the fixture batch: download all chapters, no start
filter, no archiving, three workers. -/
def ansA : Answers where
  manga_url := "mu"
  create_cbz := false
  clean_folders := false
  download_all := true
  start_chapter := none
  max_workers := 3

/-- The same answers in sequential mode (one worker). -/
def ansB : Answers :=
  { ansA with max_workers := 1 }

/-- Filesystem state left by a completed first run of the fixture
batch: output root, manga folder and both chapter folders exist. -/
def wSecond : World :=
  { dirs := ["manga_downloads", "manga_downloads/My Manga",
             "manga_downloads/My Manga/Chapter 1",
             "manga_downloads/My Manga/Chapter 2"] }

/-- C2 counterexample: on the second run of the fixture batch every
chapter directory already exists, yet the run still performs one network
request per chapter — the trace after the manga page is exactly the two
chapter-page URLs, fetched by the `total_images` pre-pass before any
per-chapter existence check. -/
theorem second_run_still_requests_counterexample :
    (∀ ch ∈ get_chapters netA.chapterTags,
      ((output_folder ++ "/" ++ sanitize_filename "My Manga") ++ "/" ++
        sanitize_filename ch.title) ∈ wSecond.dirs) ∧
    (run 3 netA sysA (some ansA) wSecond).1.trace = ["mu", "cu1", "cu2"] := by
  decide

/-- C2 amended.  The per-chapter existence check does precede any fetch
for that chapter: `download_chapter` on an existing directory returns
Skipped with no network request and no state change.  At the batch
level, however, the `total_images` pre-pass of `run` fetches every
chapter's page on every run, so a second identical run performs exactly
one chapter-page request per already-downloaded chapter and zero image
requests: its whole trace is the manga page followed by the chapter
URLs, and no file is written. -/
theorem second_run_requests (rc : Nat) (net : Net) (sys : Sys) (a : Answers)
    (w : World) (t : String)
    (hmk0 : sys.mkdirOk output_folder = true)
    (hpage : net.pageOk = true)
    (htitle : net.title = some t)
    (hmk1 : sys.mkdirOk (output_folder ++ "/" ++ sanitize_filename t) = true)
    (hch : get_chapters net.chapterTags ≠ [])
    (hstart : a.start_chapter = none)
    (hall : a.download_all = true)
    (hexist : ∀ ch ∈ get_chapters net.chapterTags,
      ((output_folder ++ "/" ++ sanitize_filename t) ++ "/" ++
        sanitize_filename ch.title) ∈ w.dirs) :
    (∀ (chapter : Chapter) (p : String) (cb cl : Bool) (w' : World),
        (p ++ "/" ++ sanitize_filename chapter.title) ∈ w'.dirs →
        download_chapter rc net sys chapter p cb cl w' = (true, w')) ∧
    (run rc net sys (some a) w).1.trace =
      w.trace ++ a.manga_url :: (get_chapters net.chapterTags).map (·.url) ∧
    (run rc net sys (some a) w).1.files = w.files := by
  refine ⟨fun chapter p cb cl w' h =>
    download_chapter_skip rc net sys chapter p cb cl w' h, ?_, ?_⟩
  all_goals
    obtain ⟨w2, htr, hfi, hsl, hdirs, hrun⟩ := run_happy rc net sys a w t
      (get_chapters net.chapterTags) (get_chapters net.chapterTags)
      hmk0 hpage htitle hmk1 hch
      (by rw [hstart]; rfl) (by rw [hall]; simp) (by rw [hall]; simp)
  all_goals
    have hskip := runJobs_all_exist rc net sys
      (output_folder ++ "/" ++ sanitize_filename t) a.create_cbz a.clean_folders
      (get_chapters net.chapterTags)
      { w2 with trace := w2.trace ++ (get_chapters net.chapterTags).map (·.url) }
      (fun ch hch2 => hdirs _ (hexist ch hch2))
  all_goals
    rw [hrun]
    dsimp only
    rw [hskip]
  · show w2.trace ++ (get_chapters net.chapterTags).map (·.url) = _
    rw [htr]
    simp
  · exact hfi

/-- C2 witness: applying the amended theorem to the fixture's second
run. -/
theorem second_run_requests_witness :
    sysA.mkdirOk output_folder = true ∧
    netA.pageOk = true ∧
    netA.title = some "My Manga" ∧
    sysA.mkdirOk (output_folder ++ "/" ++ sanitize_filename "My Manga") = true ∧
    get_chapters netA.chapterTags ≠ [] ∧
    ansA.start_chapter = none ∧
    ansA.download_all = true ∧
    (∀ ch ∈ get_chapters netA.chapterTags,
      ((output_folder ++ "/" ++ sanitize_filename "My Manga") ++ "/" ++
        sanitize_filename ch.title) ∈ wSecond.dirs) ∧
    ((∀ (chapter : Chapter) (p : String) (cb cl : Bool) (w' : World),
        (p ++ "/" ++ sanitize_filename chapter.title) ∈ w'.dirs →
        download_chapter 3 netA sysA chapter p cb cl w' = (true, w')) ∧
    (run 3 netA sysA (some ansA) wSecond).1.trace =
      wSecond.trace ++ ansA.manga_url :: (get_chapters netA.chapterTags).map (·.url) ∧
    (run 3 netA sysA (some ansA) wSecond).1.files = wSecond.files) :=
  ⟨rfl, rfl, rfl, rfl, by decide, rfl, rfl, by decide,
   second_run_requests 3 netA sysA ansA wSecond "My Manga"
     rfl rfl rfl rfl (by decide) rfl rfl (by decide)⟩

/-! ### C3: the total-image pre-pass is unconditional -/

/-- C3 counterexample: with `max_workers = 1` on a second run of the
fixture, every chapter is skipped by the existence check, yet the
chapter-page URLs appear in the trace — they can only come from the
`total_images` pre-pass, which therefore also runs when
`maxWorkers == 1`, contradicting the claimed "if and only if
maxWorkers > 1". -/
theorem sequential_mode_still_prepasses_counterexample :
    ansB.max_workers = 1 ∧
    (∀ ch ∈ get_chapters netA.chapterTags,
      ((output_folder ++ "/" ++ sanitize_filename "My Manga") ++ "/" ++
        sanitize_filename ch.title) ∈ wSecond.dirs) ∧
    (run 3 netA sysA (some ansB) wSecond).1.trace = ["mu", "cu1", "cu2"] := by
  decide

/-- C3 amended.  The blocking pre-pass that queries the extractor for
every selected chapter runs unconditionally, whatever `maxWorkers` is
(in particular also when it is 1); the jobs are then executed
sequentially in chapter order.  The run's trace starts with the manga
page followed by one pre-pass request per selected chapter, before any
job-phase request. -/
theorem run_prepass_unconditional (rc : Nat) (net : Net) (sys : Sys) (a : Answers)
    (w : World) (t : String) (filtered selected : List Chapter)
    (hmk0 : sys.mkdirOk output_folder = true)
    (hpage : net.pageOk = true)
    (htitle : net.title = some t)
    (hmk1 : sys.mkdirOk (output_folder ++ "/" ++ sanitize_filename t) = true)
    (hch : get_chapters net.chapterTags ≠ [])
    (hfilt : startFilterStep a.start_chapter (get_chapters net.chapterTags) = some filtered)
    (hsel : ¬ (¬ a.download_all ∧ filtered = []))
    (hselected : selected = if a.download_all then filtered else filtered.take 1) :
    ∃ (w2 : World) (rest : List String),
      w2.trace = w.trace ++ [a.manga_url] ∧
      w2.files = w.files ∧
      run rc net sys (some a) w =
        (runJobs rc net sys (output_folder ++ "/" ++ sanitize_filename t)
           a.create_cbz a.clean_folders selected
           { w2 with trace := w2.trace ++ selected.map (·.url) },
         .finished) ∧
      (run rc net sys (some a) w).1.trace =
        w.trace ++ a.manga_url :: (selected.map (·.url) ++ rest) := by
  obtain ⟨w2, htr, hfi, hsl, hdirs, hrun⟩ := run_happy rc net sys a w t
    filtered selected hmk0 hpage htitle hmk1 hch hfilt hsel hselected
  obtain ⟨rest, hrest, _⟩ := runJobs_trace_ext rc net sys
    (output_folder ++ "/" ++ sanitize_filename t) a.create_cbz a.clean_folders
    selected { w2 with trace := w2.trace ++ selected.map (·.url) }
  refine ⟨w2, rest, htr, hfi, hrun, ?_⟩
  rw [hrun]
  dsimp only
  rw [hrest]
  show (w2.trace ++ selected.map (·.url)) ++ rest = _
  rw [htr]
  simp

/-- C3 witness: the amended theorem applied to the sequential
(`max_workers = 1`) fixture run. -/
theorem run_prepass_unconditional_witness :
    sysA.mkdirOk output_folder = true ∧
    netA.pageOk = true ∧
    netA.title = some "My Manga" ∧
    sysA.mkdirOk (output_folder ++ "/" ++ sanitize_filename "My Manga") = true ∧
    get_chapters netA.chapterTags ≠ [] ∧
    startFilterStep ansB.start_chapter (get_chapters netA.chapterTags) =
      some (get_chapters netA.chapterTags) ∧
    ¬ (¬ ansB.download_all ∧ get_chapters netA.chapterTags = []) ∧
    (get_chapters netA.chapterTags =
      if ansB.download_all then get_chapters netA.chapterTags
      else (get_chapters netA.chapterTags).take 1) ∧
    ∃ (w2 : World) (rest : List String),
      w2.trace = wSecond.trace ++ [ansB.manga_url] ∧
      w2.files = wSecond.files ∧
      run 3 netA sysA (some ansB) wSecond =
        (runJobs 3 netA sysA (output_folder ++ "/" ++ sanitize_filename "My Manga")
           ansB.create_cbz ansB.clean_folders (get_chapters netA.chapterTags)
           { w2 with trace := w2.trace ++ (get_chapters netA.chapterTags).map (·.url) },
         .finished) ∧
      (run 3 netA sysA (some ansB) wSecond).1.trace =
        wSecond.trace ++ ansB.manga_url ::
          ((get_chapters netA.chapterTags).map (·.url) ++ rest) :=
  ⟨rfl, rfl, rfl, rfl, by decide, by decide, by decide, by decide,
   run_prepass_unconditional 3 netA sysA ansB wSecond "My Manga"
     (get_chapters netA.chapterTags) (get_chapters netA.chapterTags)
     rfl rfl rfl rfl (by decide) (by decide) (by decide) (by decide)⟩

/-! ### C6: process exit behaviour -/

/-- A filesystem that refuses to create the output root. -/
def sysF : Sys where
  mkdirOk := fun p => decide (p ≠ "manga_downloads")
  cbzOk := fun _ => true

/-- C6 counterexample: when the output directory cannot be created,
`run` returns early and the process exits 0 — not the non-zero exit the
claim requires for this setup failure. -/
theorem outputdir_failure_exits_zero_counterexample :
    sysF.mkdirOk output_folder = false ∧
    (run 3 netA sysF (some ansA) {}).2 = RunOutcome.returned ∧
    mainExit false 3 netA sysF (some ansA) {} = 0 := by
  decide

/-- C6 amended.  The process exits 0 on batch completion even when some
chapters failed, and exits non-zero on a user interrupt, on a failed
manga-page fetch or on a missing manga title — but a failure to create
the output directory only makes `run` return early, and the process
still exits 0. -/
theorem mainExit_spec (rc : Nat) (net : Net) (sys : Sys) (a : Answers) (w : World) :
    (mainExit true rc net sys (some a) w = 1) ∧
    (sys.mkdirOk output_folder = false →
      run rc net sys (some a) w = (w, RunOutcome.returned) ∧
      mainExit false rc net sys (some a) w = 0) ∧
    (sys.mkdirOk output_folder = true → net.pageOk = false →
      (run rc net sys (some a) w).2 = RunOutcome.exited1 ∧
      mainExit false rc net sys (some a) w = 1) ∧
    (sys.mkdirOk output_folder = true → net.pageOk = true → net.title = none →
      (run rc net sys (some a) w).2 = RunOutcome.exited1 ∧
      mainExit false rc net sys (some a) w = 1) ∧
    ((run rc net sys (some a) w).2 = RunOutcome.finished →
      mainExit false rc net sys (some a) w = 0) := by
  refine ⟨rfl, ?_, ?_, ?_, ?_⟩
  · intro h
    have hrun : run rc net sys (some a) w = (w, RunOutcome.returned) := by
      simp only [run, create_directory_fail sys output_folder w h]
      simp
    exact ⟨hrun, by simp [mainExit, hrun, exitStatus]⟩
  · intro h hp
    have hrun : (run rc net sys (some a) w).2 = RunOutcome.exited1 := by
      simp only [run, create_directory_fst, h, hp]
      simp
    exact ⟨hrun, by simp [mainExit, hrun, exitStatus]⟩
  · intro h hp ht
    have hrun : (run rc net sys (some a) w).2 = RunOutcome.exited1 := by
      simp only [run, create_directory_fst, h, hp, ht]
      simp
    exact ⟨hrun, by simp [mainExit, hrun, exitStatus]⟩
  · intro h
    simp [mainExit, h, exitStatus]

/-- C6 witness: the fixture where the output root cannot be created
exits 0 after an early return. -/
theorem mainExit_spec_witness :
    sysF.mkdirOk output_folder = false ∧
    (run 3 netA sysF (some ansA) {} = ({}, RunOutcome.returned) ∧
     mainExit false 3 netA sysF (some ansA) {} = 0) :=
  ⟨by decide, (mainExit_spec 3 netA sysF ansA {}).2.1 (by decide)⟩

/-! ### C10: download-all false selects exactly the first chapter -/

/-- C10.  When the download-all answer is false, exactly one chapter job
is dispatched: the head of the chronological chapter list after the
optional start filter (`chapters = [chapters[0]]`).  The run's requests
are the manga page, that chapter's page (one pre-pass entry), and then
only URLs belonging to that chapter — its page again for the job and
its image URLs — so no other chapter's page is fetched for download. -/
theorem run_download_first_only (rc : Nat) (net : Net) (sys : Sys) (a : Answers)
    (w : World) (t : String) (c : Chapter) (rest_chs : List Chapter)
    (hmk0 : sys.mkdirOk output_folder = true)
    (hpage : net.pageOk = true)
    (htitle : net.title = some t)
    (hmk1 : sys.mkdirOk (output_folder ++ "/" ++ sanitize_filename t) = true)
    (hfilt : startFilterStep a.start_chapter (get_chapters net.chapterTags) =
      some (c :: rest_chs))
    (hall : a.download_all = false) :
    ∃ (w2 : World) (tr : List String),
      w2.files = w.files ∧
      run rc net sys (some a) w =
        (runJobs rc net sys (output_folder ++ "/" ++ sanitize_filename t)
           a.create_cbz a.clean_folders [c]
           { w2 with trace := w2.trace ++ [c].map (·.url) },
         .finished) ∧
      (run rc net sys (some a) w).1.trace = w.trace ++ a.manga_url :: c.url :: tr ∧
      ∀ u ∈ tr, u = c.url ∨ u ∈ net.images c.url := by
  have hch : get_chapters net.chapterTags ≠ [] := by
    intro h
    rw [h] at hfilt
    rcases hs : a.start_chapter with _ | s0
    · rw [hs] at hfilt
      simp [startFilterStep] at hfilt
    · rcases s0 with _ | s
      · rw [hs] at hfilt
        simp [startFilterStep] at hfilt
      · rw [hs] at hfilt
        simp [startFilterStep, filter_start] at hfilt
  obtain ⟨w2, htr, hfi, hsl, hdirs, hrun⟩ := run_happy rc net sys a w t
    (c :: rest_chs) [c] hmk0 hpage htitle hmk1 hch hfilt
    (by simp) (by rw [hall]; simp)
  obtain ⟨rest, hrest, hmem⟩ := runJobs_trace_ext rc net sys
    (output_folder ++ "/" ++ sanitize_filename t) a.create_cbz a.clean_folders
    [c] { w2 with trace := w2.trace ++ [c].map (·.url) }
  refine ⟨w2, rest, hfi, hrun, ?_, ?_⟩
  · rw [hrun]
    dsimp only
    rw [hrest]
    show (w2.trace ++ [c.url]) ++ rest = _
    rw [htr]
    simp
  · intro u hu
    obtain ⟨ch, hch2, hor⟩ := hmem u hu
    have : ch = c := by simpa using hch2
    rw [this] at hor
    exact hor

/-- The fixture answers selecting only the first chapter. -/
def ansC : Answers :=
  { ansA with download_all := false }

/-- C10 witness: on a fresh fixture run with download-all false, only
"Chapter 1" is dispatched. -/
theorem run_download_first_only_witness :
    sysA.mkdirOk output_folder = true ∧
    netA.pageOk = true ∧
    netA.title = some "My Manga" ∧
    sysA.mkdirOk (output_folder ++ "/" ++ sanitize_filename "My Manga") = true ∧
    startFilterStep ansC.start_chapter (get_chapters netA.chapterTags) =
      some (⟨"Chapter 1", "cu1"⟩ :: [⟨"Chapter 2", "cu2"⟩]) ∧
    ansC.download_all = false ∧
    ∃ (w2 : World) (tr : List String),
      w2.files = ({} : World).files ∧
      run 3 netA sysA (some ansC) {} =
        (runJobs 3 netA sysA (output_folder ++ "/" ++ sanitize_filename "My Manga")
           ansC.create_cbz ansC.clean_folders [⟨"Chapter 1", "cu1"⟩]
           { w2 with trace := w2.trace ++ [(⟨"Chapter 1", "cu1"⟩ : Chapter)].map (·.url) },
         .finished) ∧
      (run 3 netA sysA (some ansC) {}).1.trace =
        ({} : World).trace ++ ansC.manga_url ::
          (⟨"Chapter 1", "cu1"⟩ : Chapter).url :: tr ∧
      ∀ u ∈ tr, u = (⟨"Chapter 1", "cu1"⟩ : Chapter).url ∨
        u ∈ netA.images (⟨"Chapter 1", "cu1"⟩ : Chapter).url :=
  ⟨rfl, rfl, rfl, rfl, by decide, rfl,
   run_download_first_only 3 netA sysA ansC {} "My Manga"
     ⟨"Chapter 1", "cu1"⟩ [⟨"Chapter 2", "cu2"⟩]
     rfl rfl rfl rfl (by decide) rfl⟩

end MangaDL
